import Mathlib

/-!
Shallow embedding of `frontacc_conv.py` (the `convert_to_decimal` helper and
`FrontaccConverter.gl2qif`), together with theorems settling the specification
claims about the converter.

Modelling conventions:
* A spreadsheet is a grid of cells (`Sheet := List (List Cell)`); a cell is
  absent (pandas NaN), a text value (numeric cells are represented by the text
  that Python's `str(value)` would produce for them, which is exactly what
  `convert_to_decimal` sees), or a date (the Date column carries parsed
  `datetime64` values).
* Python `Decimal` values are pairs of an integer mantissa and a decimal
  exponent (`Dec`), compared by numeric value as `Decimal.__eq__` does.
* Every exception raised inside `gl2qif` is caught by its `except` clause and
  re-raised as `ConversionError`; the constructors of `ConvErr` record the
  underlying cause (`IndexError` from the header search or an out-of-range
  read, `ValueError` from `convert_to_decimal` or from a failing date
  coercion, `NameError` from the never-assigned `empty_line_index`,
  `AttributeError` from calling `.replace` on a NaN memo, `TypeError` from
  adding NaN to the running `Decimal` balance, and the balance-mismatch
  `ValueError` of line 117).
* The output file is written line by line inside `with open(...)`; the model
  threads the list of written lines and returns it together with the outcome,
  `none` standing for "the output file was never opened".
-/

namespace FrontaccConv

/-- Python `Decimal` value: `man * 10 ^ (- exp)`, i.e. `exp` fractional
digits. `Decimal("1234.5")` is `⟨12345, 1⟩`. -/
structure Dec where
  man : Int
  exp : Nat
deriving DecidableEq, Repr

/-- Numeric value of a `Dec` as a rational. -/
def Dec.val (d : Dec) : ℚ := (d.man : ℚ) / (10 : ℚ) ^ d.exp

/-- Python `Decimal.__eq__`: numeric comparison, blind to the exponent
(`Decimal("1.5") == Decimal("1.50")`). -/
def Dec.eqv (a b : Dec) : Bool := a.man * (10 : Int) ^ b.exp == b.man * (10 : Int) ^ a.exp

/-- Python unary minus on `Decimal`: negate the mantissa, keep the exponent. -/
def Dec.neg (d : Dec) : Dec := ⟨-d.man, d.exp⟩

/-- Python `Decimal` addition: exact, at the larger number of fractional
digits (the magnitudes in scope never hit the 28-digit context limit). -/
def Dec.add (a b : Dec) : Dec :=
  let e := max a.exp b.exp
  ⟨a.man * (10 : Int) ^ (e - a.exp) + b.man * (10 : Int) ^ (e - b.exp), e⟩

/-- Decimal digits of a natural number (as characters). -/
def natDigits (n : Nat) : List Char := Nat.toDigits 10 n

/-- Left-pad the digits of `n` with zeros to width `w`. -/
def padNum (w n : Nat) : String :=
  let ds := natDigits n
  String.mk (List.replicate (w - ds.length) '0' ++ ds)

/-- Python `str` on a `Decimal` with a non-positive exponent: optional sign,
integer digits, and `exp` fractional digits (mantissa zero-padded so that at
least one integer digit is printed): `str(Decimal("-0.05")) = "-0.05"`. -/
def Dec.render (d : Dec) : String :=
  let sign := if d.man < 0 then "-" else ""
  let ds0 := natDigits d.man.natAbs
  if d.exp = 0 then sign ++ String.mk ds0
  else
    let ds := List.replicate (d.exp + 1 - ds0.length) '0' ++ ds0
    sign ++ String.mk (ds.take (ds.length - d.exp)) ++ "." ++
      String.mk (ds.drop (ds.length - d.exp))

/-- Calendar date as carried by the parsed `datetime64` Date column. -/
structure GLDate where
  year : Nat
  month : Nat
  day : Nat
deriving DecidableEq, Repr

/-- Python `strftime('%m/%d/%Y')`: zero-padded `MM/DD/YYYY`. -/
def fmtDate (d : GLDate) : String :=
  padNum 2 d.month ++ "/" ++ padNum 2 d.day ++ "/" ++ padNum 4 d.year

/-- Python `str` of a midnight `Timestamp` (only used where a date cell is
fed through a string conversion, where its exact text is never `"TYPE"` and
never a parsable float). -/
def datePyStr (d : GLDate) : String :=
  padNum 4 d.year ++ "-" ++ padNum 2 d.month ++ "-" ++ padNum 2 d.day ++ " 00:00:00"

/-- Raw spreadsheet cell: absent (NaN), text (covering numeric cells via the
text `str(value)` yields for them), or a parsed date. -/
inductive Cell where
  | empty : Cell
  | str : String → Cell
  | date : GLDate → Cell
deriving DecidableEq, Repr

/-- Spreadsheet row: cells at column indices `A = 0 .. K = 10`. -/
abbrev Row := List Cell

/-- Spreadsheet: rows top to bottom. -/
abbrev Sheet := List Row

/-- Causes with which the wrapped `ConversionError` is raised (see module
comment for the Python exception each constructor stands for). -/
inductive ConvErr where
  | headerNotFound : ConvErr
  | rangeError : ConvErr
  | valueError : ConvErr
  | nameError : ConvErr
  | attributeError : ConvErr
  | typeError : ConvErr
  | balanceMismatch : Dec → Dec → ConvErr
deriving DecidableEq, Repr

/-- Pandas `pd.notna` on a raw cell. -/
def Cell.notna : Cell → Bool
  | Cell.empty => false
  | _ => true

/-- Parse of a Python float literal `[+-]? digits [. digits]?` into mantissa
and number of fractional digits (`float` also accepts padding spaces,
exponent and inf/nan forms, none of which occur for the cell texts in
scope; those yield `none`, i.e. `ValueError`). -/
def floatParse (s : String) : Option (Int × Nat) :=
  let p : Int × List Char :=
    match s.data with
    | '-' :: r => (-1, r)
    | '+' :: r => (1, r)
    | r => (1, r)
  let sg := p.1
  let ip := p.2.takeWhile Char.isDigit
  let fr := p.2.dropWhile Char.isDigit
  let dv : List Char → Int := fun cs =>
    cs.foldl (fun a c => a * 10 + ((c.toNat - 48 : Nat) : Int)) 0
  match fr with
  | [] => if ip.isEmpty then none else some (sg * dv ip, 0)
  | '.' :: fp =>
    if fp.all Char.isDigit && !(ip.isEmpty && fp.isEmpty) then
      some (sg * (dv ip * (10 : Int) ^ fp.length + dv fp), fp.length)
    else none
  | _ => none

/-- Normal form produced by `Decimal(str(float(...)))`: `str(float(x))`
prints the shortest decimal string that round-trips, which for the
low-precision currency values in scope is `x` with trailing fractional
zeros removed and at least one fractional digit kept
(`str(float("1234.50")) = "1234.5"`, `str(float("1000")) = "1000.0"`). -/
def floatNorm : Int → Nat → Dec
  | m, 0 => ⟨m * 10, 1⟩
  | m, 1 => ⟨m, 1⟩
  | m, e + 2 => if m % 10 = 0 then floatNorm (m / 10) (e + 1) else ⟨m, e + 2⟩

/-- Lines 14-18: `convert_to_decimal`. `pd.notna` gates the conversion
(absent raises `ValueError`); then
`Decimal(str(float(str(value).replace(',', '').replace('.', '.', 1))))`:
all commas are removed (`.replace('.', '.', 1)` is a no-op), the text is
parsed as a float and the result re-read as a `Decimal` in float-repr
normal form. A date value stringifies to a non-float text, so it raises
`ValueError` as well. -/
def convert_to_decimal (v : Cell) : Except ConvErr Dec :=
  match v with
  | Cell.empty => Except.error ConvErr.valueError
  | Cell.date _ => Except.error ConvErr.valueError
  | Cell.str s =>
    match floatParse (String.mk (s.data.filter (fun c => c ≠ ','))) with
    | some me => Except.ok (floatNorm me.1 me.2)
    | none => Except.error ConvErr.valueError

/-- Cell at row `r`, column `c`; cells beyond a ragged row are absent. -/
def getCell (s : Sheet) (r c : Nat) : Cell := (((s.get? r).getD []).get? c).getD Cell.empty

/-- Pandas `astype(str)`-style text of a cell (NaN prints as `"nan"`). -/
def cellPyStr : Cell → String
  | Cell.empty => "nan"
  | Cell.str s => s
  | Cell.date d => datePyStr d

/-- Python `str.strip()` (both-ends whitespace trim). -/
def trimChars (cs : List Char) : List Char :=
  ((cs.dropWhile Char.isWhitespace).reverse.dropWhile Char.isWhitespace).reverse

/-- Line 48 predicate: first column of the row, `astype(str)`, stripped and
upper-cased, equals `'TYPE'`. -/
def isTypeHeader (row : Row) : Bool :=
  String.mk ((trimChars (cellPyStr ((row.get? 0).getD Cell.empty)).data).map Char.toUpper) == "TYPE"

/-- Line 48: index of the first row whose first column normalizes to
`'TYPE'`; `.index[0]` on no match raises `IndexError`. -/
def typeRowIdx (s : Sheet) : Option Nat := s.findIdx? isTypeHeader

/-- Lines 55-57 and 111-113: read the debit (column I = 8) / credit
(column J = 9) pair of row `r` and reduce it to one signed decimal:
`- convert_to_decimal(credit) if pd.notna(credit) else convert_to_decimal(debit)`.
Reading past the end of the sheet raises `IndexError` (`.iloc[0, 0]` on an
empty frame). -/
def balancePair (s : Sheet) (r : Nat) : Except ConvErr Dec :=
  if r < s.length then
    if Cell.notna (getCell s r 9) then (convert_to_decimal (getCell s r 9)).map Dec.neg
    else convert_to_decimal (getCell s r 8)
  else Except.error ConvErr.rangeError

/-- Line 52: the period cell (column B of the row after `skiprows=2`,
i.e. row 3), informational only; reading past the end raises
`IndexError`. -/
def readPeriod (s : Sheet) : Except ConvErr Cell :=
  if 3 < s.length then Except.ok (getCell s 3 1) else Except.error ConvErr.rangeError

/-- Parsed transaction-block row, i.e. what one `df.iterrows()` row holds
after the dtype/converter pipeline of lines 64-83: text columns keep NaN as
absent, the Date column is a parsed date or NaT, and the
Debit/Credit/Balance columns hold `convert_to_decimal` results (absent
cells are NA-masked and never reach the converter, staying NaN). -/
structure TxRow where
  tpe : Option String
  ref : Option String
  num : Option String
  date : Option GLDate
  dimension : Option String
  unusedCol : Option String
  personItem : Option String
  memo : Option String
  debit : Option Dec
  credit : Option Dec
  balance : Option Dec
deriving DecidableEq, Repr

/-- Text column read (`dtype=str` keeps NaN absent; a date cell would
stringify). -/
def colStr (row : Row) (c : Nat) : Option String :=
  match (row.get? c).getD Cell.empty with
  | Cell.empty => none
  | Cell.str s => some s
  | Cell.date d => some (datePyStr d)

/-- Converter column read (lines 79-81): absent cells are NA-masked and stay
NaN; any other cell goes through `convert_to_decimal`, whose `ValueError`
aborts the whole `read_excel`. -/
def colDec (row : Row) (c : Nat) : Except ConvErr (Option Dec) :=
  match (row.get? c).getD Cell.empty with
  | Cell.empty => Except.ok none
  | cell => (convert_to_decimal cell).map some

/-- Date column read (`dtype "datetime64[ns]"`): absent becomes NaT,
non-date text fails the coercion and aborts the read. -/
def colDate (row : Row) (c : Nat) : Except ConvErr (Option GLDate) :=
  match (row.get? c).getD Cell.empty with
  | Cell.empty => Except.ok none
  | Cell.date d => Except.ok (some d)
  | Cell.str _ => Except.error ConvErr.valueError

/-- One row of the `pd.read_excel` of lines 64-83, columns A-K mapped to the
named fields. -/
def parseTxRow (row : Row) : Except ConvErr TxRow :=
  match colDate row 3, colDec row 8, colDec row 9, colDec row 10 with
  | Except.ok dt, Except.ok db, Except.ok cr, Except.ok bl =>
    Except.ok
      { tpe := colStr row 0, ref := colStr row 1, num := colStr row 2, date := dt
        dimension := colStr row 4, unusedCol := colStr row 5
        personItem := colStr row 6, memo := colStr row 7
        debit := db, credit := cr, balance := bl }
  | Except.error e, _, _, _ => Except.error e
  | _, Except.error e, _, _ => Except.error e
  | _, _, Except.error e, _ => Except.error e
  | _, _, _, Except.error e => Except.error e

/-- Lines 64-83: the dataframe read with `skiprows = row_openening_balance + 1`
(one header row is consumed, so the data rows are all sheet rows from index
`typeRow + 3` to the end of the sheet, the sentinel row, the closing-balance
row and any stray content included). -/
def readTxBlock (s : Sheet) (start : Nat) : Except ConvErr (List TxRow) :=
  (s.drop start).mapM parseTxRow

/-- Line 94 sign convention for a transaction row:
`-row['Credit'] if pd.notna(row['Credit']) else row['Debit']`; `none` means
both cells were NaN, so `trans_amount` is the float NaN and the subsequent
`running_balance += trans_amount` raises `TypeError`. -/
def signedAmount (t : TxRow) : Option Dec :=
  match t.credit with
  | some c => some (Dec.neg c)
  | none => t.debit

/-- Python `f"{opt}"` for a `dtype=str` column value (NaN prints `nan`). -/
def strOrNan (o : Option String) : String := o.getD "nan"

/-- Line 99 `row['Memo'].replace("\n", "")`: remove every newline. -/
def stripNl (m : String) : String := String.mk (m.data.filter (fun c => c ≠ '\n'))

/-- Character class of the regex `(?<=\] )([^/|\n]+)` on line 103: everything
except slash, pipe and newline. -/
def payeeChar (c : Char) : Bool := !(c == '/' || c == '|' || c == '\n')

/-- Leftmost search for the pattern "group of `ok` characters preceded by the
literal `'] '`": `re.search` tries successive start positions, and after a
failed candidate no new match can begin before the character that broke it
(neither `' '` nor a class-excluded character is `']'`), so the scan resumes
at that character. Returns the maximal group at the first match. -/
def payeeScanWith (ok : Char → Bool) : List Char → Option (List Char)
  | ']' :: ' ' :: c :: rest =>
    if ok c then some ((c :: rest).takeWhile ok)
    else payeeScanWith ok (c :: rest)
  | _ :: rest => payeeScanWith ok rest
  | [] => none

/-- Lines 102-106: payee extraction from the Person/Item field. The field
must be a non-empty string; the regex match, if any, is stripped, and an
empty strip result is falsy so no payee is produced. -/
def payeeOf (pi : Option String) : Option String :=
  match pi with
  | none => none
  | some s =>
    if s.isEmpty then none
    else
      match payeeScanWith payeeChar s.data with
      | none => none
      | some cs =>
        let p := String.mk (trimChars cs)
        if p.isEmpty then none else some p

/-- QIF lines of a fully-processable transaction row, in the order lines
96-108 write them: `D` date, `T` signed amount, `N` reference,
`M` "type: memo-without-newlines", optional `P` payee, and the `^`
terminator. Rows missing a needed field never reach this shape (the loop
errors instead), so the catch-all arm is unreached there. -/
def recLines (t : TxRow) : List String :=
  match t.date, signedAmount t, t.memo with
  | some d, some amt, some m =>
    ["D" ++ fmtDate d, "T" ++ Dec.render amt, "N" ++ strOrNan t.ref,
     "M" ++ strOrNan t.tpe ++ ": " ++ stripNl m]
    ++ (match payeeOf t.personItem with
        | some p => ["P" ++ p]
        | none => []) ++ ["^"]
  | _, _, _ => []

/-- Lines 89-108: the `for _, row in df.iterrows()` loop. `i` is the running
dataframe index, `run` the running balance, `acc` the lines written so far.
Returns the written lines together with either an error (raised mid-loop,
the already-written lines standing) or the final running balance and the
index of the sentinel row (`empty_line_index`), `none` when no blank-date
row was met. Per iteration: a NaN date breaks out of the loop; otherwise the
signed amount is computed and added to the running balance (a NaN amount
raises `TypeError` before anything of this row is written), the `D`, `T`
and `N` lines are written, the memo is de-newlined (`AttributeError` on a
NaN memo, after `D`/`T`/`N` are already on disk), and the `M`, optional
`P`, and `^` lines follow. -/
def emitLoop : List TxRow → Nat → Dec → List String → List String × Except ConvErr (Dec × Option Nat)
  | [], _, run, acc => (acc, Except.ok (run, none))
  | t :: rest, i, run, acc =>
    match t.date with
    | none => (acc, Except.ok (run, some i))
    | some d =>
      match signedAmount t with
      | none => (acc, Except.error ConvErr.typeError)
      | some amt =>
        match t.memo with
        | none =>
          (acc ++ ["D" ++ fmtDate d, "T" ++ Dec.render amt, "N" ++ strOrNan t.ref],
           Except.error ConvErr.attributeError)
        | some m =>
          emitLoop rest (i + 1) (Dec.add run amt)
            (acc ++ (["D" ++ fmtDate d, "T" ++ Dec.render amt, "N" ++ strOrNan t.ref,
                      "M" ++ strOrNan t.tpe ++ ": " ++ stripNl m]
                     ++ (match payeeOf t.personItem with
                         | some p => ["P" ++ p]
                         | none => []) ++ ["^"]))

/-- Rows the loop actually processes: the longest date-carrying head of the
transaction block. -/
def processedRows (rows : List TxRow) : List TxRow :=
  rows.takeWhile (fun t => t.date.isSome)

/-- Signed amounts of a row sequence, `none` as soon as some row has both
debit and credit absent (the loop raises `TypeError` there). -/
def signedAmounts : List TxRow → Option (List Dec)
  | [] => some []
  | t :: rest =>
    match signedAmount t, signedAmounts rest with
    | some a, some as => some (a :: as)
    | _, _ => none

/-- Lines 42-83, everything before the output file is opened: locate the
`'TYPE'` header row, read the period cell, reduce the opening-balance
debit/credit pair at `typeRow + 1`, and parse the transaction block starting
at `typeRow + 3`. Any failure here aborts before a single output line is
written. -/
def preStage (s : Sheet) : Except ConvErr (Nat × Dec × List TxRow) :=
  match typeRowIdx s with
  | none => Except.error ConvErr.headerNotFound
  | some tr =>
    match readPeriod s with
    | Except.error e => Except.error e
    | Except.ok _ =>
      match balancePair s (tr + 1) with
      | Except.error e => Except.error e
      | Except.ok ob =>
        match readTxBlock s (tr + 3) with
        | Except.error e => Except.error e
        | Except.ok rows => Except.ok (tr, ob, rows)

/-- Lines 28-124: `FrontaccConverter.gl2qif`. First component: the lines
written to the output file (`none` when the pre-stage failed before the
file was opened). Second component: success, or the `ConvErr` cause wrapped
into `ConversionError`. After the loop, a missing sentinel leaves
`empty_line_index` unassigned (`NameError`); otherwise the closing balance
is read from sheet row `typeRow + 3 + stopOffset + 1` with the same
debit/credit reduction as the opening balance, and line 116 compares it to
the running balance by exact `Decimal` equality. -/
def gl2qif (s : Sheet) (acct : String) : Option (List String) × Except ConvErr Unit :=
  match preStage s with
  | Except.error e => (none, Except.error e)
  | Except.ok (tr, ob, rows) =>
    match emitLoop rows 0 ob ["!Type:" ++ acct] with
    | (out, Except.error e) => (some out, Except.error e)
    | (out, Except.ok (_, none)) => (some out, Except.error ConvErr.nameError)
    | (out, Except.ok (run, some stop)) =>
      match balancePair s (tr + 3 + stop + 1) with
      | Except.error e => (some out, Except.error e)
      | Except.ok cb =>
        if Dec.eqv run cb then (some out, Except.ok ())
        else (some out, Except.error (ConvErr.balanceMismatch run cb))

/-- Concrete statement following the template: opening-balance row
(column I debit `1000.00`). -/
def exOpenRow : Row :=
  [Cell.str "Opening Balance", Cell.empty, Cell.empty, Cell.empty, Cell.empty,
   Cell.empty, Cell.empty, Cell.empty, Cell.str "1000.00"]

/-- Concrete transaction row: credit `200.00` on 2024-03-15. -/
def exTx1 : Row :=
  [Cell.str "Payment", Cell.str "INV1", Cell.empty, Cell.date ⟨2024, 3, 15⟩, Cell.empty,
   Cell.empty, Cell.str "[001] Landlord Co", Cell.str "Office rent", Cell.empty,
   Cell.str "200.00"]

/-- Concrete closing-balance row matching the running balance (`800.00`). -/
def exCloseRow : Row :=
  [Cell.str "Ending Balance", Cell.empty, Cell.empty, Cell.empty, Cell.empty,
   Cell.empty, Cell.empty, Cell.empty, Cell.str "800.00"]

/-- Concrete closing-balance row off by one cent (`800.01`). -/
def exCloseRowBad : Row :=
  [Cell.str "Ending Balance", Cell.empty, Cell.empty, Cell.empty, Cell.empty,
   Cell.empty, Cell.empty, Cell.empty, Cell.str "800.01"]

/-- Concrete statement whose reconciliation succeeds: `TYPE` header at row 4,
opening balance 1000.00 at row 5, one credit-200.00 transaction at row 7,
sentinel at row 8, closing balance 800.00 at row 9. -/
def exSheet : Sheet :=
  [[Cell.str "GL Report"], [], [], [Cell.empty, Cell.str "2024-03"],
   [Cell.str "Type"], exOpenRow, [], exTx1, [], exCloseRow]

/-- Same statement with the closing balance off by 0.01. -/
def exSheetBad : Sheet :=
  [[Cell.str "GL Report"], [], [], [Cell.empty, Cell.str "2024-03"],
   [Cell.str "Type"], exOpenRow, [], exTx1, [], exCloseRowBad]

/-- Same statement truncated right after the transaction row: every row of
the transaction block carries a date, so no sentinel exists. -/
def exSheetNoSentinel : Sheet :=
  [[Cell.str "GL Report"], [], [], [Cell.empty, Cell.str "2024-03"],
   [Cell.str "Type"], exOpenRow, [], exTx1]

/-- Parsed form of `exTx1`. -/
def exRow1 : TxRow :=
  { tpe := some "Payment", ref := some "INV1", num := none,
    date := some ⟨2024, 3, 15⟩, dimension := none, unusedCol := none,
    personItem := some "[001] Landlord Co", memo := some "Office rent",
    debit := none, credit := some ⟨2000, 1⟩, balance := none }

/-- Parsed form of an all-empty sentinel row. -/
def exSentRow : TxRow :=
  { tpe := none, ref := none, num := none, date := none, dimension := none,
    unusedCol := none, personItem := none, memo := none, debit := none,
    credit := none, balance := none }

/-- Parsed form of `exCloseRow` (stray content after the sentinel). -/
def exCloseTx : TxRow :=
  { tpe := some "Ending Balance", ref := none, num := none, date := none,
    dimension := none, unusedCol := none, personItem := none, memo := none,
    debit := some ⟨8000, 1⟩, credit := none, balance := none }

/-- Transaction row with a date but both debit and credit absent. -/
def exRowBothEmpty : TxRow :=
  { tpe := some "Payment", ref := some "R1", num := none,
    date := some ⟨2024, 1, 2⟩, dimension := none, unusedCol := none,
    personItem := none, memo := some "m", debit := none, credit := none,
    balance := none }

/-- Parsed form of `exCloseRowBad` (debit `800.01`). -/
def exCloseTxBad : TxRow :=
  { tpe := some "Ending Balance", ref := none, num := none, date := none,
    dimension := none, unusedCol := none, personItem := none, memo := none,
    debit := some ⟨80001, 2⟩, credit := none, balance := none }

/-- QIF block emitted for `exRow1`. -/
def exBlock : List String :=
  ["D03/15/2024", "T-200.0", "NINV1", "MPayment: Office rent", "PLandlord Co", "^"]

/-- Full output of the example conversion. -/
def exOut : List String := "!Type:Bank" :: exBlock

/-- Five copies of the example transaction row. -/
def exGood5 : List TxRow := [exRow1, exRow1, exRow1, exRow1, exRow1]

/-- Output of emitting `exGood5` from an empty accumulator. -/
def exFiveOut : List String := exBlock ++ exBlock ++ exBlock ++ exBlock ++ exBlock

/-- Transaction row whose debit came in as `1234.5` (or `1234.50`). -/
def exRowT : TxRow :=
  { tpe := some "Payment", ref := some "R1", num := none,
    date := some ⟨2024, 1, 2⟩, dimension := none, unusedCol := none,
    personItem := none, memo := some "m", debit := some ⟨12345, 1⟩,
    credit := none, balance := none }

/-- Raw sheet row parsing to `exRowBothEmpty` (columns I-K out of range,
hence absent). -/
def exRowBothEmptyRaw : Row :=
  [Cell.str "Payment", Cell.str "R1", Cell.empty, Cell.date ⟨2024, 1, 2⟩,
   Cell.empty, Cell.empty, Cell.empty, Cell.str "m"]

/-- Transaction row with a lone credit of 50.00. -/
def exRowCredit50 : TxRow :=
  { tpe := some "Payment", ref := some "R2", num := none,
    date := some ⟨2024, 1, 3⟩, dimension := none, unusedCol := none,
    personItem := none, memo := some "m", debit := none,
    credit := some ⟨500, 1⟩, balance := none }

/-- Transaction row with a lone debit of 50.00. -/
def exRowDebit50 : TxRow :=
  { tpe := some "Payment", ref := some "R3", num := none,
    date := some ⟨2024, 1, 4⟩, dimension := none, unusedCol := none,
    personItem := none, memo := some "m", debit := some ⟨500, 1⟩,
    credit := none, balance := none }

/-- One-row sheet whose credit column (J) holds 50.00. -/
def exBalCreditSheet : Sheet :=
  [[Cell.empty, Cell.empty, Cell.empty, Cell.empty, Cell.empty, Cell.empty,
    Cell.empty, Cell.empty, Cell.empty, Cell.str "50.00"]]

/-- Payee rule as the specification words it: first substring after a
literal `'] '` marker containing neither a slash nor a line break (the
pipe character is not excluded), trimmed; empty or missing means no
payee. Modelled from the spec for comparison against `payeeOf`. -/
def payeeSpecOf (s : String) : Option String :=
  if s.isEmpty then none
  else
    match payeeScanWith (fun c => !(c == '/' || c == '\n')) s.data with
    | none => none
    | some cs =>
      let p := String.mk (trimChars cs)
      if p.isEmpty then none else some p

/-- Outcome of a successful loop run: the written lines extend the
accumulator by exactly one QIF block per processed row, the final running
balance is the fold of the processed rows' signed amounts over the start
value, and the sentinel index, when present, is the offset of the first
blank-date row past the processed head. -/
theorem emitLoop_ok (rows : List TxRow) : ∀ i run acc out r so,
    emitLoop rows i run acc = (out, Except.ok (r, so)) →
    (∃ amts, signedAmounts (processedRows rows) = some amts ∧
       r = amts.foldl Dec.add run ∧
       out = acc ++ (processedRows rows).flatMap recLines) ∧
    ((so = none ∧ ∀ t ∈ rows, t.date.isSome = true) ∨
     (∃ j t rest2, so = some (i + j) ∧ j = (processedRows rows).length ∧
        rows = processedRows rows ++ t :: rest2 ∧ t.date = none)) := by
  induction rows with
  | nil =>
    intro i run acc out r so h
    simp only [emitLoop] at h
    obtain ⟨rfl, rfl, rfl⟩ : acc = out ∧ run = r ∧ (none : Option Nat) = so := by
      simpa [Prod.ext_iff] using h
    refine ⟨⟨[], rfl, rfl, by simp [processedRows]⟩, Or.inl ⟨rfl, by simp⟩⟩
  | cons t rest ih =>
    intro i run acc out r so h
    cases hd : t.date with
    | none =>
      simp only [emitLoop, hd] at h
      obtain ⟨rfl, rfl, rfl⟩ : acc = out ∧ run = r ∧ (some i : Option Nat) = so := by
        simpa [Prod.ext_iff] using h
      have hpr : processedRows (t :: rest) = [] := by
        simp [processedRows, List.takeWhile_cons, hd]
      refine ⟨⟨[], by rw [hpr]; rfl, rfl, by simp [hpr]⟩,
        Or.inr ⟨0, t, rest, by simp, by simp [hpr], by simp [hpr], hd⟩⟩
    | some d =>
      cases ha : signedAmount t with
      | none => simp [emitLoop, hd, ha] at h
      | some amt =>
        cases hm : t.memo with
        | none => simp [emitLoop, hd, ha, hm] at h
        | some m =>
          simp only [emitLoop, hd, ha, hm] at h
          obtain ⟨⟨amts, hmap, hr, hout⟩, hdisj⟩ := ih (i + 1) (Dec.add run amt) _ out r so h
          have hpr : processedRows (t :: rest) = t :: processedRows rest := by
            simp [processedRows, List.takeWhile_cons, hd]
          have hrec : recLines t =
              ["D" ++ fmtDate d, "T" ++ Dec.render amt, "N" ++ strOrNan t.ref,
               "M" ++ strOrNan t.tpe ++ ": " ++ stripNl m]
              ++ (match payeeOf t.personItem with
                  | some p => ["P" ++ p]
                  | none => []) ++ ["^"] := by
            simp [recLines, hd, ha, hm]
          refine ⟨⟨amt :: amts, ?_, ?_, ?_⟩, ?_⟩
          · rw [hpr]
            simp [signedAmounts, ha, hmap]
          · simpa [List.foldl_cons] using hr
          · rw [hpr, List.flatMap_cons, hout, hrec]
            simp [List.append_assoc]
          · rcases hdisj with ⟨rfl, hall⟩ | ⟨j, t', rest2, hso, hj, hdec, ht'⟩
            · exact Or.inl ⟨rfl, by
                intro x hx
                rcases List.mem_cons.mp hx with rfl | hx
                · simp [hd]
                · exact hall x hx⟩
            · refine Or.inr ⟨j + 1, t', rest2, ?_, ?_, ?_, ht'⟩
              · rw [hso]; congr 1; omega
              · simp [hpr, hj]
              · rw [hpr]; exact congrArg (List.cons t) hdec

/-- Rows that all carry a date are all processed. -/
theorem processedRows_all (rows : List TxRow) (h : ∀ t ∈ rows, t.date.isSome = true) :
    processedRows rows = rows := by
  simpa [processedRows, List.takeWhile_eq_self_iff] using h

/-- Inversion of the pre-stage: a success pins down every read it made. -/
theorem preStage_ok {s : Sheet} {tr : Nat} {ob : Dec} {rows : List TxRow}
    (h : preStage s = Except.ok (tr, ob, rows)) :
    typeRowIdx s = some tr ∧ balancePair s (tr + 1) = Except.ok ob ∧
      readTxBlock s (tr + 3) = Except.ok rows := by
  unfold preStage at h
  split at h
  · simp at h
  · rename_i tr1 h1
    split at h
    · simp at h
    · split at h
      · simp at h
      · rename_i ob1 h3
        split at h
        · simp at h
        · rename_i rows1 h4
          obtain ⟨rfl, rfl, rfl⟩ : tr1 = tr ∧ ob1 = ob ∧ rows1 = rows := by simpa using h
          exact ⟨h1, h3, h4⟩

/-- The float-repr normal form keeps at least one fractional digit. -/
theorem floatNorm_exp_pos (m : Int) (e : Nat) : 1 ≤ (floatNorm m e).exp := by
  induction e using Nat.strong_induction_on generalizing m with
  | _ e ih =>
    match e with
    | 0 => simp [floatNorm]
    | 1 => simp [floatNorm]
    | e + 2 =>
      rw [floatNorm]
      split
      · exact ih (e + 1) (by omega) (m / 10)
      · simp

/-- The float-repr normal form has no trailing fractional zero beyond the
first fractional digit. -/
theorem floatNorm_no_trailing_zero (m : Int) (e : Nat) :
    1 < (floatNorm m e).exp → ¬ (floatNorm m e).man % 10 = 0 := by
  induction e using Nat.strong_induction_on generalizing m with
  | _ e ih =>
    match e with
    | 0 => simp [floatNorm]
    | 1 => simp [floatNorm]
    | e + 2 =>
      rw [floatNorm]
      split
      · exact ih (e + 1) (by omega) (m / 10)
      · rename_i hnz
        intro _
        simpa using hnz

/-- The float-repr normal form preserves the numeric value. -/
theorem floatNorm_val (m : Int) (e : Nat) : (floatNorm m e).val = Dec.val ⟨m, e⟩ := by
  induction e using Nat.strong_induction_on generalizing m with
  | _ e ih =>
    match e with
    | 0 =>
      simp only [floatNorm, Dec.val]
      push_cast
      ring
    | 1 => simp [floatNorm]
    | e + 2 =>
      rw [floatNorm]
      split
      · rename_i hz
        have hdvd : (10 : Int) ∣ m := Int.dvd_of_emod_eq_zero hz
        obtain ⟨k, rfl⟩ := hdvd
        have hk : (10 : Int) * k / 10 = k := by
          rw [Int.mul_ediv_cancel_left _ (by norm_num)]
        rw [hk, ih (e + 1) (by omega) k]
        simp only [Dec.val]
        push_cast
        rw [pow_succ]
        field_simp
        ring
      · rfl

/-- A successful payee scan presupposes the literal `'] '` marker somewhere
in the scanned text. -/
theorem payeeScanWith_marker (ok : Char → Bool) :
    ∀ cs p, payeeScanWith ok cs = some p → [']', ' '] <:+: cs := by
  intro cs
  induction cs using payeeScanWith.induct ok with
  | case1 c rest hok =>
    intro p h
    exact ⟨[], c :: rest, rfl⟩
  | case2 c rest hnok ih =>
    intro p h
    rw [payeeScanWith, if_neg hnok] at h
    exact List.infix_cons (List.infix_cons (ih p h))
  | case3 head rest hne ih =>
    intro p h
    rw [payeeScanWith.eq_def] at h
    split at h
    · rename_i c rest2 heq
      injection heq with hh ht
      exact (hne c rest2 hh ht).elim
    · rename_i a rest3 heq
      injection heq with hh ht
      subst ht
      exact List.infix_cons (ih p h)
    · rename_i heq
      simp at heq
  | case4 =>
    intro p h
    simp [payeeScanWith] at h

/-- Appending a blank-date sentinel row and arbitrary further content after
a block of date-carrying rows changes nothing about the written lines or the
accumulated balance: the run is the run on the date-carrying block alone,
with the sentinel's offset reported as the stop index. -/
theorem emitLoop_append_sentinel (t : TxRow) (rest : List TxRow) (ht : t.date = none) :
    ∀ good : List TxRow, (∀ x ∈ good, x.date.isSome = true) →
    ∀ i run acc,
      emitLoop (good ++ t :: rest) i run acc =
        ((emitLoop good i run acc).1,
         match (emitLoop good i run acc).2 with
         | Except.ok (r, _) => Except.ok (r, some (i + good.length))
         | Except.error e => Except.error e) := by
  intro good
  induction good with
  | nil =>
    intro _ i run acc
    simp [emitLoop, ht]
  | cons g gs ih =>
    intro hgood i run acc
    have hg : g.date.isSome = true := hgood g (List.mem_cons_self ..)
    obtain ⟨d, hd⟩ := Option.isSome_iff_exists.mp hg
    cases ha : signedAmount g with
    | none => simp [emitLoop, hd, ha]
    | some amt =>
      cases hm : g.memo with
      | none => simp [emitLoop, hd, ha, hm]
      | some m =>
        have harith : i + 1 + gs.length = i + (g :: gs).length := by
          simp; omega
        simp only [List.cons_append, emitLoop, hd, ha, hm, List.append_eq]
        rw [ih (fun x hx => hgood x (List.mem_cons_of_mem _ hx)) (i + 1) (Dec.add run amt) _,
          harith]

/-- Shape of a `gl2qif` run that reached the closing-balance read: the file
holds exactly the loop's lines, and the outcome is decided by the closing
read and the reconciliation comparison. -/
theorem gl2qif_reconcile {s : Sheet} {a : String} {tr : Nat} {ob : Dec}
    {rows : List TxRow} {out : List String} {run : Dec} {stop : Nat}
    (hpre : preStage s = Except.ok (tr, ob, rows))
    (hemit : emitLoop rows 0 ob ["!Type:" ++ a] = (out, Except.ok (run, some stop))) :
    gl2qif s a =
      (some out,
       match balancePair s (tr + 3 + stop + 1) with
       | Except.error e => Except.error e
       | Except.ok cb =>
         if Dec.eqv run cb then Except.ok ()
         else Except.error (ConvErr.balanceMismatch run cb)) := by
  unfold gl2qif
  rw [hpre]
  simp only [hemit]
  cases hq : balancePair s (tr + 3 + stop + 1) with
  | error e => rfl
  | ok cb => cases hb : Dec.eqv run cb <;> simp [hb]

/-- C1: the conversion succeeds exactly when the opening balance plus the
sum of the signed amounts of the extracted transaction records equals, by
exact decimal equality, the independently-read closing balance; whenever
the run reaches the reconciliation with the identity violated, it fails
with the balance-mismatch cause (a hard `ConversionError`, not a
warning). -/
theorem c1_reconciliation_identity (s : Sheet) (a : String) :
    ((gl2qif s a).2 = Except.ok () →
      ∃ tr ob rows out run stop cb amts,
        preStage s = Except.ok (tr, ob, rows) ∧
        emitLoop rows 0 ob ["!Type:" ++ a] = (out, Except.ok (run, some stop)) ∧
        balancePair s (tr + 3 + stop + 1) = Except.ok cb ∧
        signedAmounts (processedRows rows) = some amts ∧
        run = amts.foldl Dec.add ob ∧
        Dec.eqv run cb = true) ∧
    (∀ tr ob rows out run stop cb,
      preStage s = Except.ok (tr, ob, rows) →
      emitLoop rows 0 ob ["!Type:" ++ a] = (out, Except.ok (run, some stop)) →
      balancePair s (tr + 3 + stop + 1) = Except.ok cb →
      Dec.eqv run cb = false →
      (gl2qif s a).2 = Except.error (ConvErr.balanceMismatch run cb)) := by
  constructor
  · intro h
    rcases hpre : preStage s with e | ⟨tr, ob, rows⟩
    · rw [show (gl2qif s a).2 = Except.error e by simp [gl2qif, hpre]] at h
      simp at h
    · rcases hemit : emitLoop rows 0 ob ["!Type:" ++ a] with ⟨out, res⟩
      cases res with
      | error e =>
        rw [show (gl2qif s a).2 = Except.error e by simp [gl2qif, hpre, hemit]] at h
        simp at h
      | ok p =>
        obtain ⟨run, so⟩ := p
        cases so with
        | none =>
          rw [show (gl2qif s a).2 = Except.error ConvErr.nameError by
            simp [gl2qif, hpre, hemit]] at h
          simp at h
        | some stop =>
          rcases hcb : balancePair s (tr + 3 + stop + 1) with e | cb
          · rw [show (gl2qif s a).2 = Except.error e by
              rw [gl2qif_reconcile hpre hemit, hcb]] at h
            simp at h
          · cases hb : Dec.eqv run cb with
            | false =>
              rw [show (gl2qif s a).2 = Except.error (ConvErr.balanceMismatch run cb) by
                rw [gl2qif_reconcile hpre hemit, hcb]
                simp [hb]] at h
              simp at h
            | true =>
              obtain ⟨⟨amts, hmap, hr, _⟩, _⟩ :=
                emitLoop_ok rows 0 ob _ out run (some stop) hemit
              exact ⟨tr, ob, rows, out, run, stop, cb, amts, rfl, hemit, hcb, hmap, hr, hb⟩
  · intro tr ob rows out run stop cb hpre hemit hcb hne
    have hfull : gl2qif s a = (some out, Except.error (ConvErr.balanceMismatch run cb)) := by
      rw [gl2qif_reconcile hpre hemit, hcb]
      simp [hne]
    rw [hfull]

/-- C1 witness: the concrete statement whose closing balance is off by one
cent fails with the balance-mismatch cause. -/
theorem c1_reconciliation_identity_witness :
    (gl2qif exSheetBad "Bank").2 =
      Except.error (ConvErr.balanceMismatch ⟨8000, 1⟩ ⟨80001, 2⟩) :=
  (c1_reconciliation_identity exSheetBad "Bank").2 4 ⟨10000, 1⟩
    [exRow1, exSentRow, exCloseTxBad] exOut ⟨8000, 1⟩ 1 ⟨80001, 2⟩ rfl rfl rfl rfl

/-- C2: the signed amount of a transaction row is the negation of the
credit when the credit is present and the debit unchanged otherwise, and
the opening/closing balance cells are reduced by the same convention
(credit cell present, i.e. non-NaN, gives the negated credit; otherwise
the debit column is used). -/
theorem c2_sign_convention :
    (∀ t : TxRow, ∀ c : Dec, t.credit = some c → signedAmount t = some (Dec.neg c)) ∧
    (∀ t : TxRow, t.credit = none → signedAmount t = t.debit) ∧
    (∀ s : Sheet, ∀ r : Nat, r < s.length → Cell.notna (getCell s r 9) = true →
      balancePair s r = (convert_to_decimal (getCell s r 9)).map Dec.neg) ∧
    (∀ s : Sheet, ∀ r : Nat, r < s.length → Cell.notna (getCell s r 9) = false →
      balancePair s r = convert_to_decimal (getCell s r 8)) := by
  refine ⟨?_, ?_, ?_, ?_⟩
  · intro t c hc
    simp [signedAmount, hc]
  · intro t hc
    simp [signedAmount, hc]
  · intro s r hr hc
    simp [balancePair, hr, hc]
  · intro s r hr hc
    simp [balancePair, hr, hc]

/-- C2 witness: credit 50.00 with empty debit gives -50.00, debit 50.00
with empty credit gives +50.00, and the balance reads follow the same
convention on concrete one-row sheets. -/
theorem c2_sign_convention_witness :
    signedAmount exRowCredit50 = some ⟨-500, 1⟩ ∧
    signedAmount exRowDebit50 = some ⟨500, 1⟩ ∧
    balancePair exBalCreditSheet 0 = Except.ok ⟨-500, 1⟩ ∧
    balancePair [exOpenRow] 0 = Except.ok ⟨10000, 1⟩ := by
  refine ⟨c2_sign_convention.1 exRowCredit50 ⟨500, 1⟩ rfl, ?_, ?_, ?_⟩
  · rw [c2_sign_convention.2.1 exRowDebit50 rfl]
    rfl
  · rw [c2_sign_convention.2.2.1 exBalCreditSheet 0 (by decide) rfl]
    rfl
  · rw [c2_sign_convention.2.2.2 [exOpenRow] 0 (by decide) rfl]
    rfl

/-- C3: reading stops at the first blank-date row; that sentinel and all
content after it contribute neither written records nor balance updates —
the run on the full block equals the run on the date-carrying head, with
the sentinel's offset as the recorded stop index. -/
theorem c3_sentinel_terminates (good : List TxRow) (t : TxRow) (rest : List TxRow)
    (hgood : ∀ x ∈ good, x.date.isSome = true) (ht : t.date = none)
    (ob : Dec) (acc : List String) :
    emitLoop (good ++ t :: rest) 0 ob acc =
      ((emitLoop good 0 ob acc).1,
       match (emitLoop good 0 ob acc).2 with
       | Except.ok (r, _) => Except.ok (r, some good.length)
       | Except.error e => Except.error e) := by
  simpa using emitLoop_append_sentinel t rest ht good hgood 0 ob acc

/-- C3 witness: five valid rows, a blank-date row, then stray content give
exactly five transaction blocks (five `^` terminators) and stop index 5. -/
theorem c3_sentinel_terminates_witness :
    emitLoop (exGood5 ++ exSentRow :: [exCloseTx]) 0 ⟨10000, 1⟩ [] =
      (exFiveOut, Except.ok (⟨0, 1⟩, some 5)) ∧
    exFiveOut.count "^" = 5 := by
  constructor
  · rw [c3_sentinel_terminates exGood5 exSentRow [exCloseTx] (by decide) rfl ⟨10000, 1⟩ []]
    rfl
  · rfl

/-- C4: the output written by a run that processed its block is exactly one
`!Type:` header line followed by, per transaction row in reading order, the
fixed block `D` (MM/DD/YYYY), `T` (signed amount), `N` (reference), `M`
("type: memo" with newlines stripped), optional `P` (only when a payee was
extracted) and `^` — the shape packaged in `recLines`. -/
theorem c4_qif_output (s : Sheet) (a : String) (tr : Nat) (ob : Dec)
    (rows : List TxRow) (out : List String) (run : Dec) (stop : Nat)
    (hpre : preStage s = Except.ok (tr, ob, rows))
    (hemit : emitLoop rows 0 ob ["!Type:" ++ a] = (out, Except.ok (run, some stop))) :
    (gl2qif s a).1 = some out ∧
    out = ("!Type:" ++ a) :: (processedRows rows).flatMap recLines := by
  constructor
  · rw [gl2qif_reconcile hpre hemit]
  · obtain ⟨⟨amts, _, _, hout⟩, _⟩ := emitLoop_ok rows 0 ob _ out run (some stop) hemit
    simpa using hout

/-- C4 witness: the example conversion writes the expected seven lines. -/
theorem c4_qif_output_witness :
    (gl2qif exSheet "Bank").1 = some exOut ∧
    exOut = ("!Type:" ++ "Bank") :: (processedRows [exRow1, exSentRow, exCloseTx]).flatMap recLines :=
  c4_qif_output exSheet "Bank" 4 ⟨10000, 1⟩ [exRow1, exSentRow, exCloseTx] exOut
    ⟨8000, 1⟩ 1 rfl rfl

/-- C7: the recorded stop index is the offset of the first blank-date row
relative to the block start, and the closing balance is then read from
sheet row `headerRow + 3 + stopOffset + 1` through the same debit/credit
reduction (`balancePair`) that read the opening balance at
`headerRow + 1`. -/
theorem c7_closing_row_location (s : Sheet) (a : String) (tr : Nat) (ob : Dec)
    (rows : List TxRow) (out : List String) (run : Dec) (stop : Nat)
    (hpre : preStage s = Except.ok (tr, ob, rows))
    (hemit : emitLoop rows 0 ob ["!Type:" ++ a] = (out, Except.ok (run, some stop))) :
    (∃ t rest2, rows = processedRows rows ++ t :: rest2 ∧ t.date = none ∧
       stop = (processedRows rows).length) ∧
    balancePair s (tr + 1) = Except.ok ob ∧
    (gl2qif s a).2 =
      (match balancePair s (tr + 3 + stop + 1) with
       | Except.error e => Except.error e
       | Except.ok cb =>
         if Dec.eqv run cb then Except.ok ()
         else Except.error (ConvErr.balanceMismatch run cb)) := by
  obtain ⟨_, hdisj⟩ := emitLoop_ok rows 0 ob _ out run (some stop) hemit
  refine ⟨?_, (preStage_ok hpre).2.1, ?_⟩
  · rcases hdisj with ⟨hnone, _⟩ | ⟨j, t, rest2, hso, hj, hdec, ht⟩
    · exact absurd hnone (by simp)
    · have hstop : stop = j := by simpa using hso
      exact ⟨t, rest2, hdec, ht, by rw [hstop, hj]⟩
  · rw [gl2qif_reconcile hpre hemit]

/-- C7 witness: in the example statement the sentinel sits at block offset
1 and the closing balance is read from sheet row 4 + 3 + 1 + 1 = 9. -/
theorem c7_closing_row_location_witness :
    (∃ t rest2, [exRow1, exSentRow, exCloseTx] =
        processedRows [exRow1, exSentRow, exCloseTx] ++ t :: rest2 ∧ t.date = none ∧
        (1 : Nat) = (processedRows [exRow1, exSentRow, exCloseTx]).length) ∧
    balancePair exSheet (4 + 1) = Except.ok ⟨10000, 1⟩ ∧
    (gl2qif exSheet "Bank").2 =
      (match balancePair exSheet (4 + 3 + 1 + 1) with
       | Except.error e => Except.error e
       | Except.ok cb =>
         if Dec.eqv ⟨8000, 1⟩ cb then Except.ok ()
         else Except.error (ConvErr.balanceMismatch ⟨8000, 1⟩ cb)) :=
  c7_closing_row_location exSheet "Bank" 4 ⟨10000, 1⟩ [exRow1, exSentRow, exCloseTx]
    exOut ⟨8000, 1⟩ 1 rfl rfl

/-- C9: the balance check runs only after every output line has been
written, so an input whose reconciliation fails still produces the complete
QIF file (header plus every record block) while the run errors with the
balance-mismatch cause. -/
theorem c9_mismatch_leaves_file (s : Sheet) (a : String) (tr : Nat) (ob : Dec)
    (rows : List TxRow) (out : List String) (run : Dec) (stop : Nat) (cb : Dec)
    (hpre : preStage s = Except.ok (tr, ob, rows))
    (hemit : emitLoop rows 0 ob ["!Type:" ++ a] = (out, Except.ok (run, some stop)))
    (hcb : balancePair s (tr + 3 + stop + 1) = Except.ok cb)
    (hne : Dec.eqv run cb = false) :
    gl2qif s a =
      (some (("!Type:" ++ a) :: (processedRows rows).flatMap recLines),
       Except.error (ConvErr.balanceMismatch run cb)) := by
  obtain ⟨⟨amts, _, _, hout⟩, _⟩ := emitLoop_ok rows 0 ob _ out run (some stop) hemit
  rw [gl2qif_reconcile hpre hemit, hcb]
  simp only [hne]
  rw [hout]
  simp

/-- C9 witness: the one-cent-off statement errors, yet the full seven-line
QIF content was written. -/
theorem c9_mismatch_leaves_file_witness :
    gl2qif exSheetBad "Bank" =
      (some (("!Type:" ++ "Bank") ::
        (processedRows [exRow1, exSentRow, exCloseTxBad]).flatMap recLines),
       Except.error (ConvErr.balanceMismatch ⟨8000, 1⟩ ⟨80001, 2⟩)) :=
  c9_mismatch_leaves_file exSheetBad "Bank" 4 ⟨10000, 1⟩
    [exRow1, exSentRow, exCloseTxBad] exOut ⟨8000, 1⟩ 1 ⟨80001, 2⟩ rfl rfl rfl rfl

/-- C10: when every row of the read transaction block carries a date, no
sentinel is ever met, `empty_line_index` stays unassigned, and the run
always fails (with the `NameError` cause when the loop itself completes) —
even though every transaction record was already written to the file. -/
theorem c10_no_sentinel_fails (s : Sheet) (a : String) (tr : Nat) (ob : Dec)
    (rows : List TxRow)
    (hpre : preStage s = Except.ok (tr, ob, rows))
    (hall : ∀ t ∈ rows, t.date.isSome = true) :
    (∃ e, (gl2qif s a).2 = Except.error e) ∧
    (∀ out run, emitLoop rows 0 ob ["!Type:" ++ a] = (out, Except.ok (run, none)) →
      gl2qif s a =
        (some (("!Type:" ++ a) :: rows.flatMap recLines),
         Except.error ConvErr.nameError)) := by
  constructor
  · rcases hemit : emitLoop rows 0 ob ["!Type:" ++ a] with ⟨out, res⟩
    cases res with
    | error e => exact ⟨e, by simp [gl2qif, hpre, hemit]⟩
    | ok p =>
      obtain ⟨run, so⟩ := p
      cases so with
      | none => exact ⟨ConvErr.nameError, by simp [gl2qif, hpre, hemit]⟩
      | some j =>
        obtain ⟨_, hdisj⟩ := emitLoop_ok rows 0 ob _ out run (some j) hemit
        rcases hdisj with ⟨hn, _⟩ | ⟨j2, t, rest2, _, _, hdec, ht⟩
        · exact absurd hn (by simp)
        · exfalso
          have hmem : t ∈ rows := by
            rw [hdec]
            exact List.mem_append_right _ (List.mem_cons_self ..)
          have := hall t hmem
          rw [ht] at this
          simp at this
  · intro out run hemit
    have hg : gl2qif s a = (some out, Except.error ConvErr.nameError) := by
      simp [gl2qif, hpre, hemit]
    obtain ⟨⟨amts, _, _, hout⟩, _⟩ := emitLoop_ok rows 0 ob _ out run none hemit
    rw [hg, hout, processedRows_all rows hall]
    simp

/-- C10 witness: the truncated example sheet, whose only block row carries
a date, fails with the `NameError` cause after writing the full record. -/
theorem c10_no_sentinel_fails_witness :
    (∃ e, (gl2qif exSheetNoSentinel "Bank").2 = Except.error e) ∧
    gl2qif exSheetNoSentinel "Bank" =
      (some (("!Type:" ++ "Bank") :: [exRow1].flatMap recLines),
       Except.error ConvErr.nameError) := by
  have h := c10_no_sentinel_fails exSheetNoSentinel "Bank" 4 ⟨10000, 1⟩ [exRow1]
    rfl (by decide)
  exact ⟨h.1, h.2 exOut ⟨8000, 1⟩ rfl⟩

/-- Inversion of a successful transaction-row parse: each converted column
of the result is exactly the corresponding column read. -/
theorem parseTxRow_ok {row : Row} {t : TxRow} (h : parseTxRow row = Except.ok t) :
    colDate row 3 = Except.ok t.date ∧ colDec row 8 = Except.ok t.debit ∧
      colDec row 9 = Except.ok t.credit := by
  unfold parseTxRow at h
  split at h
  · rename_i h3 h8 h9 h10
    replace h := Except.ok.inj h
    subst h
    exact ⟨h3, h8, h9⟩
  · simp at h
  · simp at h
  · simp at h
  · simp at h

/-- C5 counterexample: the shared decimal coercion does not map an absent
cell to a 0.00 default in any context — it errors; and a transaction row
whose debit and credit cells are both absent keeps them absent after the
read and crashes the loop (`TypeError`) instead of contributing 0.00. -/
theorem c5_counterexample :
    convert_to_decimal Cell.empty = Except.error ConvErr.valueError ∧
    parseTxRow exRowBothEmptyRaw = Except.ok exRowBothEmpty ∧
    exRowBothEmpty.debit = none ∧
    exRowBothEmpty.credit = none ∧
    emitLoop [exRowBothEmpty] 0 ⟨0, 1⟩ [] = ([], Except.error ConvErr.typeError) :=
  ⟨rfl, rfl, rfl, rfl, rfl⟩

/-- C5 (amended): the shared coercion errors on absent input everywhere;
absent transaction debit/credit cells are skipped by the reader and stay
absent (no 0.00 default); for balance cells the caller falls back from the
credit column to the debit column, and fails when both are absent. -/
theorem c5_absent_cell_policy :
    convert_to_decimal Cell.empty = Except.error ConvErr.valueError ∧
    (∀ row : Row, ∀ t : TxRow, parseTxRow row = Except.ok t →
      ((row.get? 8).getD Cell.empty = Cell.empty → t.debit = none) ∧
      ((row.get? 9).getD Cell.empty = Cell.empty → t.credit = none)) ∧
    (∀ s : Sheet, ∀ r : Nat, r < s.length → getCell s r 9 = Cell.empty →
      balancePair s r = convert_to_decimal (getCell s r 8)) ∧
    (∀ s : Sheet, ∀ r : Nat, r < s.length → getCell s r 9 = Cell.empty →
      getCell s r 8 = Cell.empty → balancePair s r = Except.error ConvErr.valueError) := by
  refine ⟨rfl, ?_, ?_, ?_⟩
  · intro row t h
    obtain ⟨_, hd8, hd9⟩ := parseTxRow_ok h
    constructor
    · intro hc
      have h8 : colDec row 8 = Except.ok none := by
        unfold colDec
        rw [hc]
      rw [h8] at hd8
      exact (Except.ok.inj hd8).symm
    · intro hc
      have h9 : colDec row 9 = Except.ok none := by
        unfold colDec
        rw [hc]
      rw [h9] at hd9
      exact (Except.ok.inj hd9).symm
  · intro s r hr hc
    simp [balancePair, hr, hc, Cell.notna]
  · intro s r hr hc9 hc8
    rw [show balancePair s r = convert_to_decimal (getCell s r 8) from by
      simp [balancePair, hr, hc9, Cell.notna], hc8]
    rfl

/-- C5 witness: concrete instances of the amended policy — the row with
both cells absent keeps `debit = none`, and the example opening-balance
row with an empty credit column falls back to the debit column. -/
theorem c5_absent_cell_policy_witness :
    exRowBothEmpty.debit = none ∧
    balancePair [exOpenRow] 0 = convert_to_decimal (getCell [exOpenRow] 0 8) := by
  refine ⟨?_, c5_absent_cell_policy.2.2.1 [exOpenRow] 0 (by decide) rfl⟩
  exact (c5_absent_cell_policy.2.1 exRowBothEmptyRaw exRowBothEmpty rfl).1 rfl

/-- C6 counterexample: the coercion of `1234.50` carries one fractional
digit, not two, its text is `1234.5`, and the `T` line written for such an
amount reads `T1234.5` rather than `T1234.50`. -/
theorem c6_counterexample :
    convert_to_decimal (Cell.str "1234.50") = Except.ok ⟨12345, 1⟩ ∧
    (⟨12345, 1⟩ : Dec).exp ≠ 2 ∧
    Dec.render ⟨12345, 1⟩ = "1234.5" ∧
    "1234.5" ≠ "1234.50" ∧
    recLines exRowT = ["D01/02/2024", "T1234.5", "NR1", "MPayment: m", "^"] :=
  ⟨rfl, by decide, rfl, by decide, rfl⟩

/-- C6 (amended): the coercion strips thousands separators and preserves
the numeric value, but represents it in float-repr normal form — trailing
fractional zeros removed, at least one fractional digit kept — and the `T`
line shows that normal form, not a fixed two-decimal rendering; coercing
`"1,234.50"` and `"1234.50"` yields the identical value. -/
theorem c6_two_decimal_representation :
    (∀ s : String, ∀ d : Dec, convert_to_decimal (Cell.str s) = Except.ok d →
      1 ≤ d.exp ∧ (1 < d.exp → ¬ d.man % 10 = 0)) ∧
    (∀ m : Int, ∀ e : Nat, (floatNorm m e).val = Dec.val ⟨m, e⟩) ∧
    convert_to_decimal (Cell.str "1,234.50") = convert_to_decimal (Cell.str "1234.50") ∧
    convert_to_decimal (Cell.str "1234.50") = Except.ok ⟨12345, 1⟩ := by
  refine ⟨?_, floatNorm_val, rfl, rfl⟩
  intro s d h
  rcases hp : floatParse (String.mk (s.data.filter (fun c => c ≠ ','))) with _ | me
  · simp only [convert_to_decimal, hp] at h
    exact absurd h (by simp)
  · simp only [convert_to_decimal, hp] at h
    obtain rfl : floatNorm me.1 me.2 = d := by simpa using h
    exact ⟨floatNorm_exp_pos me.1 me.2, floatNorm_no_trailing_zero me.1 me.2⟩

/-- C6 witness: the amended normal-form property at the concrete coercion
of `"1234.50"`. -/
theorem c6_two_decimal_representation_witness :
    1 ≤ (⟨12345, 1⟩ : Dec).exp ∧
    (1 < (⟨12345, 1⟩ : Dec).exp → ¬ (⟨12345, 1⟩ : Dec).man % 10 = 0) :=
  c6_two_decimal_representation.1 "1234.50" ⟨12345, 1⟩ rfl

/-- C8 counterexample: the regex class also excludes the pipe character,
which the claim's rule does not: on `"[1] Acme Corp|note"` the code stops
at the pipe while the claimed rule would keep it. -/
theorem c8_counterexample :
    payeeOf (some "[1] Acme Corp|note") = some "Acme Corp" ∧
    payeeSpecOf "[1] Acme Corp|note" = some "Acme Corp|note" ∧
    some "Acme Corp" ≠ some "Acme Corp|note" :=
  ⟨rfl, rfl, by decide⟩

/-- C8 (amended): payee extraction returns the first substring following a
literal `'] '` marker that contains no slash, pipe or line break, trimmed;
with no `'] '` marker in the field the payee is absent, no `P` line is
emitted, and no error is raised. -/
theorem c8_payee_extraction :
    (∀ s : String, ¬ [']', ' '] <:+: s.data → payeeOf (some s) = none) ∧
    payeeOf none = none ∧
    payeeOf (some "[1234] Acme Corp/other text") = some "Acme Corp" ∧
    (∀ t : TxRow, ∀ d : GLDate, ∀ amt : Dec, ∀ m : String,
      t.date = some d → signedAmount t = some amt → t.memo = some m →
      payeeOf t.personItem = none →
      recLines t = ["D" ++ fmtDate d, "T" ++ Dec.render amt, "N" ++ strOrNan t.ref,
                    "M" ++ strOrNan t.tpe ++ ": " ++ stripNl m, "^"]) := by
  refine ⟨?_, rfl, rfl, ?_⟩
  · intro s hno
    by_cases hemp : s.isEmpty
    · simp [payeeOf, hemp]
    · rcases hscan : payeeScanWith payeeChar s.data with _ | p
      · simp [payeeOf, hemp, hscan]
      · exact absurd (payeeScanWith_marker payeeChar s.data p hscan) hno
  · intro t d amt m hd ha hm hp
    simp [recLines, hd, ha, hm, hp]

/-- C8 witness: a field without the `'] '` marker yields no payee. -/
theorem c8_payee_extraction_witness : payeeOf (some "no marker here") = none :=
  c8_payee_extraction.1 "no marker here" (by decide)

end FrontaccConv
